import Mathlib

/-!
Shallow embedding of the WorkToJiraEffort core (session state machine,
SQLite-backed activity store, consolidation, and the export orchestrator)
from `src/state.rs`, `src/database.rs`, `src/tracker.rs`, `src/llm.rs` and
`src/jira.rs`.

Modelling conventions:
* wall-clock instants (`chrono::DateTime<Utc>`) are abstract ticks `Time := Nat`;
  every operation that calls `Utc::now()` takes the current tick as a parameter;
* SQLite tables are Lean lists of row structures; `AUTOINCREMENT` rowids are
  explicit per-table counters; an SQL `UPDATE ... WHERE` is a `List.map` that
  rewrites the matching rows;
* fallible collaborator calls (Jira, LLM, screenpipe HTTP) are oracles passed
  in as functions (`Option Bool` where `none` stands for an `Err` result);
* `f64` confidence values are modelled as `ℚ`: the orchestrator only compares
  them with `<`, which agrees with rational comparison on decimal literals;
* a Rust panic is modelled as `Option.none`.
-/

namespace WTJ

/-- Abstract wall-clock instant (a `chrono::DateTime<Utc>` value). -/
abbrev Time := Nat

/-! ## src/state.rs -/

/-- Rust `TrackingState` from `src/state.rs`. -/
inductive TrackingState where
  | Stopped
  | Tracking
  | Paused
deriving DecidableEq, Repr

/-- Rust `TrackingState::is_tracking` from `src/state.rs`. -/
def TrackingState.is_tracking : TrackingState → Bool
  | .Tracking => true
  | _ => false

/-- Rust `Session` from `src/state.rs` (also the shape of a `sessions` table row). -/
structure Session where
  id : Int
  start_time : Time
  end_time : Option Time
  state : TrackingState
deriving DecidableEq, Repr

/-- Rust `Session::new` from `src/state.rs`: starts now, open, state Tracking. -/
def Session.new (id : Int) (now : Time) : Session :=
  { id := id, start_time := now, end_time := none, state := .Tracking }

/-- Rust `Session::is_active` from `src/state.rs`. -/
def Session.is_active (s : Session) : Bool := s.end_time.isNone

/-- Rust `BreakPeriod` from `src/state.rs` (also the shape of a `breaks` table row). -/
structure BreakPeriod where
  id : Int
  session_id : Int
  start_time : Time
  end_time : Option Time
deriving DecidableEq, Repr

/-- Rust `BreakPeriod::new` from `src/state.rs`. -/
def BreakPeriod.new (id : Int) (session_id : Int) (now : Time) : BreakPeriod :=
  { id := id, session_id := session_id, start_time := now, end_time := none }

/-- Rust `StateManager` from `src/state.rs`: the in-memory tracking state. -/
structure StateManager where
  current_state : TrackingState
  current_session : Option Session
  current_break : Option BreakPeriod
deriving DecidableEq, Repr

/-- Rust `StateManager::new` from `src/state.rs`. -/
def StateManager.new : StateManager :=
  { current_state := .Stopped, current_session := none, current_break := none }

/-- Rust `StateManager::start_tracking` from `src/state.rs` lines 124-142.
Rust mutates `self` and returns `Result<(), String>`; we return the new
manager on success and leave the caller's manager untouched on error,
which matches the Rust error arms (they mutate nothing before `Err`).
Note the `Paused` arm: the in-memory break has its `end_time` set and is
then dropped (`current_break = None`); no store call is made here. -/
def StateManager.start_tracking (sm : StateManager) (session_id : Int) (now : Time) :
    Except String StateManager :=
  match sm.current_state with
  | .Stopped =>
      .ok { sm with
        current_state := .Tracking,
        current_session := some (Session.new session_id now) }
  | .Tracking => .error "Already tracking"
  | .Paused =>
      .ok { sm with
        current_state := .Tracking,
        current_break := none }

/-- Rust `StateManager::pause_tracking` from `src/state.rs` lines 145-159. -/
def StateManager.pause_tracking (sm : StateManager) (break_id : Int) (now : Time) :
    Except String StateManager :=
  match sm.current_state with
  | .Tracking =>
      match sm.current_session with
      | some session =>
          .ok { sm with
            current_state := .Paused,
            current_break := some (BreakPeriod.new break_id session.id now) }
      | none => .error "No active session"
  | .Paused => .error "Already paused"
  | .Stopped => .error "Not tracking"

/-- Rust `StateManager::resume_tracking` from `src/state.rs` lines 162-175. -/
def StateManager.resume_tracking (sm : StateManager) (now : Time) :
    Except String StateManager :=
  match sm.current_state with
  | .Paused =>
      .ok { sm with
        current_state := .Tracking,
        current_break := none }
  | .Tracking => .error "Already tracking"
  | .Stopped => .error "Not in a session"

/-- Rust `StateManager::stop_tracking` from `src/state.rs` lines 178-192.
Sets `end_time` on the in-memory session and break but clears neither:
`current_session` keeps the (now ended) session. -/
def StateManager.stop_tracking (sm : StateManager) (now : Time) :
    Except String StateManager :=
  match sm.current_state with
  | .Tracking | .Paused =>
      .ok { sm with
        current_state := .Stopped,
        current_session := sm.current_session.map (fun s => { s with end_time := some now }),
        current_break := sm.current_break.map (fun b => { b with end_time := some now }) }
  | .Stopped => .error "Not tracking"

/-! ## src/screenpipe.rs -/

/-- Rust `Activity` from `src/screenpipe.rs`: one raw observation
(`get_recent_activities` always emits `duration_secs = 60`). -/
structure Activity where
  timestamp : Time
  duration_secs : Nat
  window_title : String
  app_name : String
  description : String
deriving DecidableEq, Repr

/-! ## src/database.rs -/

/-- Rust `ActivityTier` from `src/database.rs`. -/
inductive ActivityTier where
  | Micro
  | Billable
deriving DecidableEq, Repr

/-- Rust `ActivityTier::from_duration` from `src/database.rs` lines 17-23:
`Micro` below 600 seconds, `Billable` at or above. -/
def ActivityTier.from_duration (duration_secs : Nat) : ActivityTier :=
  if duration_secs < 600 then .Micro else .Billable

/-- Rust `StoredActivity` from `src/database.rs` (a row of the `activities` table).
`logged_to_jira` is the `exported` flag of the spec. -/
structure StoredActivity where
  id : Int
  session_id : Int
  timestamp : Time
  duration_secs : Nat
  window_title : String
  app_name : String
  description : String
  tier : ActivityTier
  logged_to_jira : Bool
deriving DecidableEq, Repr

/-- The SQLite database of `src/database.rs`: the three tables this
development needs, with one explicit `AUTOINCREMENT` counter per table.
(The append-only `analysis_results` table is not needed by any claim's
statement and is omitted; `store_analysis` touches only that table.) -/
structure Database where
  sessions : List Session
  breaks : List BreakPeriod
  activities : List StoredActivity
  next_session_id : Int
  next_break_id : Int
  next_activity_id : Int
deriving DecidableEq, Repr

/-- A freshly created database (`Database::new` + `init_schema`): empty
tables, rowids starting at 1. -/
def Database.empty : Database :=
  { sessions := [], breaks := [], activities := [],
    next_session_id := 1, next_break_id := 1, next_activity_id := 1 }

/-- Rust `Database::create_session` from `src/database.rs` lines 150-158:
unconditionally INSERTs a new row with `end_time = NULL`, state `tracking`,
and returns `last_insert_rowid`. -/
def Database.create_session (db : Database) (now : Time) : Database × Int :=
  let id := db.next_session_id
  ({ db with
      sessions := db.sessions ++
        [{ id := id, start_time := now, end_time := none, state := .Tracking }],
      next_session_id := id + 1 },
   id)

/-- Rust `Database::end_session` from `src/database.rs` lines 161-169:
`UPDATE sessions SET end_time = now, state = 'stopped' WHERE id = session_id`
(unconditional: it rewrites whatever rows match, open or already ended). -/
def Database.end_session (db : Database) (session_id : Int) (now : Time) : Database :=
  { db with
    sessions := db.sessions.map fun s =>
      if s.id = session_id then { s with end_time := some now, state := .Stopped } else s }

/-- Rust `Database::create_break` from `src/database.rs` lines 196-204. -/
def Database.create_break (db : Database) (session_id : Int) (now : Time) : Database × Int :=
  let id := db.next_break_id
  ({ db with
      breaks := db.breaks ++
        [{ id := id, session_id := session_id, start_time := now, end_time := none }],
      next_break_id := id + 1 },
   id)

/-- Rust `Database::end_break` from `src/database.rs` lines 207-215. -/
def Database.end_break (db : Database) (break_id : Int) (now : Time) : Database :=
  { db with
    breaks := db.breaks.map fun b =>
      if b.id = break_id then { b with end_time := some now } else b }

/-- Rust `Database::store_activity` from `src/database.rs` lines 218-236:
computes the tier from the duration and INSERTs a row with
`logged_to_jira` defaulted to 0 (false). -/
def Database.store_activity (db : Database) (session_id : Int) (a : Activity) :
    Database × Int :=
  let tier := ActivityTier.from_duration a.duration_secs
  let id := db.next_activity_id
  ({ db with
      activities := db.activities ++
        [{ id := id, session_id := session_id, timestamp := a.timestamp,
           duration_secs := a.duration_secs, window_title := a.window_title,
           app_name := a.app_name, description := a.description,
           tier := tier, logged_to_jira := false }],
      next_activity_id := id + 1 },
   id)

/-- Rust `Database::get_session_activities` from `src/database.rs` lines 239-272:
`SELECT ... WHERE session_id = ? [AND tier = '...'] ORDER BY timestamp`.
The only filters are the session id and the optional tier; there is no
"unexported only" filter. `ORDER BY timestamp` is a stable sort on the
timestamp column. -/
def Database.get_session_activities (db : Database) (session_id : Int)
    (tier : Option ActivityTier) : List StoredActivity :=
  (db.activities.filter fun a =>
      a.session_id = session_id ∧ ∀ t ∈ tier, a.tier = t).mergeSort
    (fun a b => a.timestamp ≤ b.timestamp)

/-- Rust `Database::mark_activities_logged` from `src/database.rs` lines 275-283:
`UPDATE activities SET logged_to_jira = 1 WHERE id IN (ids)`. Total for every
id list: unknown ids match no row, already-set rows are rewritten to the same
value, and SQLite accepts an empty `IN ()` list (a documented SQLite
extension), so the empty list is a no-op rather than an error. -/
def Database.mark_activities_logged (db : Database) (activity_ids : List Int) : Database :=
  { db with
    activities := db.activities.map fun a =>
      if a.id ∈ activity_ids then { a with logged_to_jira := true } else a }

/-! ## src/tracker.rs: control operations

`WorkTracker` couples the database with the in-memory `StateManager`.
Each control operation performs its database write and its state-machine
transition in the order of the Rust code; an `Err` from the state machine
is returned after the database write has already happened. -/

/-- The pieces of `WorkTracker` state that the control operations touch. -/
structure Tracker where
  db : Database
  sm : StateManager
deriving DecidableEq, Repr

/-- A fresh tracker (`WorkTracker::new`): empty database, `StateManager::new`. -/
def Tracker.initial : Tracker :=
  { db := Database.empty, sm := StateManager.new }

/-- Rust `WorkTracker::start_tracking` from `src/tracker.rs` lines 121-130:
`create_session` runs first, unconditionally; only then is the state
transition attempted. On a transition error the freshly inserted session
row is kept. -/
def Tracker.start_tracking (t : Tracker) (now : Time) : Tracker × Except String Unit :=
  let created := t.db.create_session now
  match t.sm.start_tracking created.2 now with
  | .ok sm1 => ({ db := created.1, sm := sm1 }, .ok ())
  | .error e => ({ db := created.1, sm := t.sm }, .error e)

/-- Rust `WorkTracker::pause_tracking` from `src/tracker.rs` lines 133-148:
reads the current session id (errors if none), then `create_break` runs
before the state transition is attempted. -/
def Tracker.pause_tracking (t : Tracker) (now : Time) : Tracker × Except String Unit :=
  match t.sm.current_session with
  | none => (t, .error "No active session")
  | some session =>
      let created := t.db.create_break session.id now
      match t.sm.pause_tracking created.2 now with
      | .ok sm1 => ({ db := created.1, sm := sm1 }, .ok ())
      | .error e => ({ db := created.1, sm := t.sm }, .error e)

/-- Rust `WorkTracker::resume_tracking` from `src/tracker.rs` lines 151-166. -/
def Tracker.resume_tracking (t : Tracker) (now : Time) : Tracker × Except String Unit :=
  match t.sm.current_break with
  | none => (t, .error "No active break")
  | some brk =>
      let db1 := t.db.end_break brk.id now
      match t.sm.resume_tracking now with
      | .ok sm1 => ({ db := db1, sm := sm1 }, .ok ())
      | .error e => ({ db := db1, sm := t.sm }, .error e)

/-- Rust `WorkTracker::stop_tracking` from `src/tracker.rs` lines 169-191
(the session/state part; the optional analyze-on-stop step touches only
the activities and analysis tables). `end_session` runs before the state
transition is attempted. -/
def Tracker.stop_tracking (t : Tracker) (now : Time) : Tracker × Except String Unit :=
  match t.sm.current_session with
  | none => (t, .error "No active session")
  | some session =>
      let db1 := t.db.end_session session.id now
      match t.sm.stop_tracking now with
      | .ok sm1 => ({ db := db1, sm := sm1 }, .ok ())
      | .error e => ({ db := db1, sm := t.sm }, .error e)

/-- The open sessions of the store: rows with `end_time = NULL`. -/
def Database.openSessions (db : Database) : List Session :=
  db.sessions.filter fun s => s.end_time.isNone

/-! ## src/tracker.rs: consolidation and sync -/

/-- The grouping key of `WorkTracker::consolidate_activities`
(`format!("{}:{}", app_name, window_title)` from `src/tracker.rs` line 425):
a single string, not the pair. -/
def consolidationKey (a : Activity) : String :=
  a.app_name ++ ":" ++ a.window_title

/-- One step of the consolidation loop body (`src/tracker.rs` lines 424-433):
`HashMap::entry(key).and_modify(bump duration).or_insert(activity.clone())`,
modelled on an insertion-ordered association list. -/
def consolidationStep (acc : List (String × Activity)) (a : Activity) :
    List (String × Activity) :=
  let key := consolidationKey a
  if acc.any fun p => p.1 = key then
    acc.map fun p =>
      if p.1 = key then
        (p.1, { p.2 with duration_secs := p.2.duration_secs + a.duration_secs })
      else p
  else
    acc ++ [(key, a)]

/-- Rust `WorkTracker::consolidate_activities` from `src/tracker.rs` lines 421-436.
The Rust `HashMap::into_values` yields the merged activities in arbitrary
order; the association list fixes first-insertion order, so statements about
the result are phrased order-insensitively where it matters. -/
def consolidate_activities (activities : List Activity) : List Activity :=
  (activities.foldl consolidationStep []).map fun p => p.2

/-- The `for activity in &consolidated { store_activity(...)? }` loop of
`WorkTracker::sync` (`src/tracker.rs` lines 227-236). `persist_ok` is the
persistence oracle: `false` means that unit's INSERT fails, and the `?`
aborts the loop there (the failing INSERT stores nothing). Returns the
database as far as it got and whether the whole loop succeeded. -/
def storeConsolidated (session_id : Int) (persist_ok : Activity → Bool) :
    Database → List Activity → Database × Bool
  | db, [] => (db, true)
  | db, a :: rest =>
      if persist_ok a then
        storeConsolidated session_id persist_ok (db.store_activity session_id a).1 rest
      else (db, false)

/-- Rust `WorkTracker::sync` from `src/tracker.rs` lines 195-240.
Inputs: the current state-machine view (`tracking`, `session`), the cursor
`last_sync`, the current tick, the store, the capture fetch outcome
(`none` = the screenpipe call failed) and the persistence oracle.
Output: the new store, the new `last_sync` cursor, and whether the call
returned `Ok`. The cursor is advanced to `now` only on the early empty-batch
return or after every consolidated unit has been stored successfully; any
error path leaves it unchanged. -/
def sync (tracking : Bool) (session : Option Int) (last_sync now : Time)
    (db : Database) (fetched : Option (List Activity))
    (persist_ok : Activity → Bool) : Database × Time × Bool :=
  if ¬tracking then (db, last_sync, true)
  else
    match session with
    | none => (db, last_sync, false)
    | some session_id =>
        match fetched with
        | none => (db, last_sync, false)
        | some activities =>
            if activities.isEmpty then (db, now, true)
            else
              let consolidated := consolidate_activities activities
              let stored := storeConsolidated session_id persist_ok db consolidated
              if stored.2 then (stored.1, now, true)
              else (stored.1, last_sync, false)

/-! ## src/llm.rs -/

/-- Rust `ActivityForAnalysis` from `src/llm.rs` lines 16-25 (one unit of the
batch request payload). The `ocr_sample` is kept as a character list to make
its UTF-8 byte structure explicit. -/
structure ActivityForAnalysis where
  id : Int
  timestamp : Time
  duration_secs : Nat
  app_name : String
  window_title : String
  ocr_sample : List Char
deriving DecidableEq, Repr

/-- The UTF-8 byte length of a character list (Rust `String::len`). -/
def utf8Len (s : List Char) : Nat := (s.map Char.utf8Size).sum

/-- Rust byte slicing `&s[..n]`: take the characters covering exactly the
first `n` bytes; `none` models the panic raised when `n` is not a character
boundary (or past the end). -/
def takeBytes (n : Nat) : List Char → Option (List Char)
  | [] => if n = 0 then some [] else none
  | c :: cs =>
      if n = 0 then some []
      else if c.utf8Size ≤ n then (takeBytes (n - c.utf8Size) cs).map (c :: ·)
      else none

/-- The `ocr_sample` computation of `From<&StoredActivity> for
ActivityForAnalysis` (`src/llm.rs` lines 29-34): when the description is
longer than 500 *bytes*, `format!("{}...", &description[..500])`; `none`
models the slice panic on a non-boundary byte 500. -/
def ocr_sample (description : List Char) : Option (List Char) :=
  if 500 < utf8Len description then
    (takeBytes 500 description).map (· ++ "...".data)
  else some description

/-- Rust `From<&StoredActivity> for ActivityForAnalysis` from `src/llm.rs`
lines 27-45; `none` models the byte-slice panic. -/
def activityForAnalysis (a : StoredActivity) : Option ActivityForAnalysis :=
  (ocr_sample a.description.data).map fun sample =>
    { id := a.id, timestamp := a.timestamp, duration_secs := a.duration_secs,
      app_name := a.app_name, window_title := a.window_title,
      ocr_sample := sample }

/-- Rust `IssueMatch` from `src/llm.rs` lines 100-107: one matched issue of the
classifier's response. `confidence` (`f64` in [0,1]) is modelled as `ℚ`:
the orchestrator only compares it with `<`. -/
structure IssueMatch where
  key : String
  total_time_secs : Nat
  summary : String
  work_type : String
  activities_included : List Int
  confidence : ℚ
deriving DecidableEq, Repr

/-- Default `llm.confidence_threshold` from `src/config.rs` line 115 (0.75). -/
def defaultConfidenceThreshold : ℚ := 75 / 100

/-! ## src/tracker.rs: export orchestration -/

/-- The selection step of `WorkTracker::analyze_and_log_batch`
(`src/tracker.rs` lines 257-258 together with lines 287-288): the units
handed to the AI batch request are the session's billable and micro
activities — `get_session_activities` with a tier filter only. -/
def aiBatchUnits (db : Database) (session_id : Int) : List StoredActivity :=
  db.get_session_activities session_id (some .Billable) ++
    db.get_session_activities session_id (some .Micro)

/-- The worklog `Activity` the AI path builds for an accepted match
(`src/tracker.rs` lines 317-323): aggregated seconds, the LLM-generated
summary as the title, the company name as the app. -/
def matchWorklogActivity (company : String) (session_start : Time)
    (m : IssueMatch) : Activity :=
  { timestamp := session_start, duration_secs := m.total_time_secs,
    window_title := m.summary, app_name := company,
    description := "Work type: " ++ m.work_type }

/-- The per-match loop of `WorkTracker::analyze_and_log_batch`
(`src/tracker.rs` lines 306-341): skip a match when
`confidence < threshold`; otherwise call `jira.log_work` once with the
aggregated worklog activity and, only if it returns `Ok`,
`mark_activities_logged` on exactly the match's `activities_included`.
`log_ok` is the Jira collaborator oracle. Returns the final store and the
list of `log_work` calls made, in order. -/
def aiLogMatches (threshold : ℚ) (company : String) (session_start : Time)
    (log_ok : String → Activity → Bool) :
    Database → List IssueMatch → Database × List (String × Activity)
  | db, [] => (db, [])
  | db, m :: rest =>
      if m.confidence < threshold then
        aiLogMatches threshold company session_start log_ok db rest
      else
        let act := matchWorklogActivity company session_start m
        let db1 :=
          if log_ok m.key act then db.mark_activities_logged m.activities_included
          else db
        let r := aiLogMatches threshold company session_start log_ok db1 rest
        (r.1, (m.key, act) :: r.2)

/-- The ids `aiLogMatches` ends up marking exported: the union of
`activities_included` over the accepted matches whose `log_work` call
succeeded. -/
def aiMarkedIds (threshold : ℚ) (company : String) (session_start : Time)
    (log_ok : String → Activity → Bool) (ms : List IssueMatch) : List Int :=
  (ms.filter fun m =>
      ¬(m.confidence < threshold) ∧
        log_ok m.key (matchWorklogActivity company session_start m) = true).flatMap
    fun m => m.activities_included

/-! ## src/jira.rs: issue-key detection -/

/-- Class `[A-Z]` of the issue-key regex. -/
def isUpperAZ (c : Char) : Bool := 'A' ≤ c && c ≤ 'Z'

/-- Class `\d` of the issue-key regex (modelled as the ASCII digits, the ones any
claim exercises). -/
def isDigit09 (c : Char) : Bool := '0' ≤ c && c ≤ '9'

/-- Try to match `[A-Z]+-\d+` anchored at the head of `cs`: the maximal
uppercase run, a dash, then the maximal digit run. (Within one uppercase
run only its end can be followed by `-`, so greedy matching with
backtracking coincides with taking the maximal runs.) -/
def keyAtHead (cs : List Char) : Option (List Char) :=
  let uppers := cs.takeWhile isUpperAZ
  if uppers.isEmpty then none
  else
    match cs.dropWhile isUpperAZ with
    | '-' :: rest =>
        let digits := rest.takeWhile isDigit09
        if digits.isEmpty then none else some (uppers ++ '-' :: digits)
    | _ => none

/-- Leftmost match of `([A-Z]+-\d+)` in a character list: try each start
position left to right, as the regex engine does. -/
def scanIssueKey : List Char → Option (List Char)
  | [] => none
  | c :: cs =>
      match keyAtHead (c :: cs) with
      | some k => some k
      | none => scanIssueKey cs

/-- Rust `JiraClient::find_issue_from_activity` from `src/jira.rs` lines 134-148:
scan `"{window_title} {app_name}"` for the first `[A-Z]+-\d+` token. -/
def find_issue_from_activity (a : Activity) : Option String :=
  (scanIssueKey (a.window_title ++ " " ++ a.app_name).data).map fun k =>
    String.mk k

/-! ## src/tracker.rs: fallback path -/

/-- The `Activity` the fallback loop rebuilds from a stored row
(`src/tracker.rs` lines 375-381). -/
def storedToActivity (sa : StoredActivity) : Activity :=
  { timestamp := sa.timestamp, duration_secs := sa.duration_secs,
    window_title := sa.window_title, app_name := sa.app_name,
    description := sa.description }

/-- The target key the fallback loop resolves for a unit (`src/tracker.rs`
lines 383-393): the manual override takes precedence; otherwise the
issue-key regex scan of the rebuilt activity. -/
def fallbackKey (issue_override : Option String) (sa : StoredActivity) :
    Option String :=
  match issue_override with
  | some key => some key
  | none => find_issue_from_activity (storedToActivity sa)

/-- One iteration of `WorkTracker::fallback_regex_logging`'s loop
(`src/tracker.rs` lines 370-415) for a single stored unit. Oracles:
`is_assigned k = none` models an `Err` from `jira.is_assigned_to_me`
(logged and skipped), `some b` an `Ok(b)`; `log_ok` tells whether the
single `jira.log_work` call succeeds. Returns the store after this unit
and the `log_work` calls made for it. The unit is marked exported
(`mark_activities_logged [id]`) only in the `Ok` branch of its `log_work`
call. -/
def fallbackStep (issue_override : Option String)
    (is_assigned : String → Option Bool) (log_ok : String → Activity → Bool)
    (db : Database) (sa : StoredActivity) : Database × List (String × Activity) :=
  if sa.logged_to_jira then (db, [])
  else
    let act := storedToActivity sa
    match fallbackKey issue_override sa with
    | none => (db, [])
    | some key =>
        match is_assigned key with
        | some true =>
            if log_ok key act then (db.mark_activities_logged [sa.id], [(key, act)])
            else (db, [(key, act)])
        | some false => (db, [])
        | none => (db, [])

/-- Rust `WorkTracker::fallback_regex_logging` from `src/tracker.rs`
lines 363-419 (with the Jira integration enabled): the loop over the
pre-fetched activity slice, threading the store. -/
def fallback_regex_logging (issue_override : Option String)
    (is_assigned : String → Option Bool) (log_ok : String → Activity → Bool) :
    Database → List StoredActivity → Database × List (String × Activity)
  | db, [] => (db, [])
  | db, sa :: rest =>
      let r1 := fallbackStep issue_override is_assigned log_ok db sa
      let r2 := fallback_regex_logging issue_override is_assigned log_ok r1.1 rest
      (r2.1, r1.2 ++ r2.2)

/-- Whether the fallback loop attempts a `log_work` call for a unit:
not yet exported, a target key resolved (override first, else the regex
scan), and `is_assigned_to_me` returned `Ok(true)`. -/
def fallbackAttempts (issue_override : Option String)
    (is_assigned : String → Option Bool) (sa : StoredActivity) : Bool :=
  if sa.logged_to_jira then false
  else
    match fallbackKey issue_override sa with
    | none => false
    | some key => is_assigned key = some true

/-- The ids the fallback run marks exported: units whose single `log_work`
call was attempted and succeeded. -/
def fallbackMarkedIds (issue_override : Option String)
    (is_assigned : String → Option Bool) (log_ok : String → Activity → Bool)
    (sas : List StoredActivity) : List Int :=
  (sas.filter fun sa =>
      fallbackAttempts issue_override is_assigned sa ∧
        ∀ key ∈ fallbackKey issue_override sa,
          log_ok key (storedToActivity sa) = true).map fun sa => sa.id

/-- The `log_work` calls the fallback loop makes for one unit, as a function
of the oracles only (they do not depend on the threaded store): one call when
the unit is unexported, a target key resolves, and `is_assigned_to_me`
returned `Ok(true)`; no call otherwise. -/
def fallbackUnitCalls (issue_override : Option String)
    (is_assigned : String → Option Bool) (sa : StoredActivity) :
    List (String × Activity) :=
  match fallbackKey issue_override sa with
  | none => []
  | some key =>
      if ¬sa.logged_to_jira ∧ is_assigned key = some true then
        [(key, storedToActivity sa)]
      else []

/-- First-occurrence deduplication of a key list: the distinct grouping keys
in the order the consolidation loop first meets them. -/
def firstOccKeys : List String → List String
  | [] => []
  | k :: ks => k :: firstOccKeys (ks.filter fun x => x ≠ k)
termination_by l => l.length
decreasing_by
  simp_wf
  exact Nat.lt_succ_of_le (List.length_filter_le _ _)

/-- What one entry of the consolidation accumulator must look like after the
batch `l` has been processed: its key is its activity's key, its activity is
the first observation of that key with the duration replaced by the group's
total duration. -/
def consolidatedEntryOk (l : List Activity) (p : String × Activity) : Prop :=
  p.1 = consolidationKey p.2 ∧
  ∃ f, (l.find? fun b => consolidationKey b = p.1) = some f ∧
    p.2 = { f with duration_secs :=
      ((l.filter fun b => consolidationKey b = p.1).map Activity.duration_secs).sum }

/-- Invariant of the consolidation fold: after processing the batch `l`, the
accumulator holds one entry per distinct key in first-seen order, each entry
merged per `consolidatedEntryOk`. -/
def consolidationInv (l : List Activity) (acc : List (String × Activity)) : Prop :=
  acc.map Prod.fst = firstOccKeys (l.map consolidationKey) ∧
  ∀ p ∈ acc, consolidatedEntryOk l p

/-! ## Helper lemmas -/

theorem mark_activities_logged_nil (db : Database) :
    db.mark_activities_logged [] = db := by
  simp [Database.mark_activities_logged]

theorem mark_activities_logged_append (db : Database) (l1 l2 : List Int) :
    (db.mark_activities_logged l1).mark_activities_logged l2 =
      db.mark_activities_logged (l1 ++ l2) := by
  simp only [Database.mark_activities_logged, List.map_map]
  congr 1
  apply List.map_congr_left
  intro a _
  by_cases h1 : a.id ∈ l1 <;> by_cases h2 : a.id ∈ l2 <;>
    simp [Function.comp, h1, h2]

theorem mem_firstOccKeys (x : String) :
    ∀ (ks : List String), x ∈ firstOccKeys ks ↔ x ∈ ks := by
  intro ks
  induction ks using firstOccKeys.induct with
  | case1 => simp [firstOccKeys]
  | case2 k ks ih =>
      rw [firstOccKeys]
      by_cases hxk : x = k
      · simp [hxk]
      · simp only [List.mem_cons, hxk, false_or]
        rw [ih]
        simp [hxk]

theorem firstOccKeys_append (ks : List String) (x : String) :
    firstOccKeys (ks ++ [x]) =
      if x ∈ ks then firstOccKeys ks else firstOccKeys ks ++ [x] := by
  induction ks using firstOccKeys.induct with
  | case1 => simp [firstOccKeys]
  | case2 k ks ih =>
      rw [List.cons_append, firstOccKeys, List.filter_append]
      by_cases hxk : x = k
      · subst hxk
        simp [firstOccKeys, List.mem_cons]
      · have hfx : [x].filter (fun y => y ≠ k) = [x] := by simp [hxk]
        rw [hfx, ih]
        by_cases hmem : x ∈ ks
        · simp [firstOccKeys, hmem, hxk, List.mem_filter]
        · have : x ∉ ks.filter (fun y => y ≠ k) := by simp [List.mem_filter, hmem]
          simp [firstOccKeys, hmem, hxk, this]

theorem consolidationStep_inv {l : List Activity} {acc : List (String × Activity)}
    (a : Activity) (h : consolidationInv l acc) :
    consolidationInv (l ++ [a]) (consolidationStep acc a) := by
  obtain ⟨hkeys, hentries⟩ := h
  by_cases hany : (acc.any fun p => p.1 = consolidationKey a) = true
  · have hkl : consolidationKey a ∈ l.map consolidationKey := by
      rcases List.any_eq_true.mp hany with ⟨p, hp, hpk⟩
      simp only [decide_eq_true_eq] at hpk
      have : consolidationKey a ∈ acc.map Prod.fst := List.mem_map.mpr ⟨p, hp, hpk⟩
      rw [hkeys] at this
      exact (mem_firstOccKeys _ _).mp this
    have hstep : consolidationStep acc a =
        acc.map fun p =>
          if p.1 = consolidationKey a then
            (p.1, { p.2 with duration_secs := p.2.duration_secs + a.duration_secs })
          else p := by
      simp only [consolidationStep, hany, if_true]
    constructor
    · rw [hstep, List.map_map]
      have hfst : (acc.map fun p =>
          Prod.fst (if p.1 = consolidationKey a then
            (p.1, { p.2 with duration_secs := p.2.duration_secs + a.duration_secs })
          else p)) = acc.map Prod.fst := by
        apply List.map_congr_left
        intro p _
        by_cases hpk : p.1 = consolidationKey a <;> simp [hpk]
      calc (acc.map (Prod.fst ∘ fun p =>
              if p.1 = consolidationKey a then
                (p.1, { p.2 with duration_secs := p.2.duration_secs + a.duration_secs })
              else p))
          = acc.map Prod.fst := hfst
        _ = firstOccKeys ((l ++ [a]).map consolidationKey) := by
            rw [hkeys, List.map_append, List.map_cons, List.map_nil,
              firstOccKeys_append, if_pos hkl]
    · intro p' hp'
      rw [hstep] at hp'
      obtain ⟨p, hp, rfl⟩ := List.mem_map.mp hp'
      obtain ⟨hpfst, f, hfind, hpsnd⟩ := hentries p hp
      by_cases hpk : p.1 = consolidationKey a
      · rw [if_pos hpk]
        refine ⟨hpfst, f, ?_, ?_⟩
        · rw [List.find?_append, hfind]
          rfl
        · rw [List.filter_append, List.map_append, List.sum_append]
          have hfa : ([a].filter fun b => consolidationKey b = p.1) = [a] := by
            simp [hpk.symm]
          rw [hfa]
          simp [hpsnd]
      · rw [if_neg hpk]
        refine ⟨hpfst, f, ?_, ?_⟩
        · rw [List.find?_append, hfind]
          rfl
        · rw [List.filter_append, List.map_append, List.sum_append]
          have hne : ¬consolidationKey a = p.1 := fun hEq => hpk hEq.symm
          have hfa : ([a].filter fun b => consolidationKey b = p.1) = [] := by
            simp [hne]
          rw [hfa]
          simpa using hpsnd
  · have hforall : ∀ p ∈ acc, ¬(p.1 = consolidationKey a) := by
      intro p hp hpk
      exact hany (List.any_eq_true.mpr ⟨p, hp, by simp [hpk]⟩)
    have hknl : consolidationKey a ∉ l.map consolidationKey := by
      intro hmem
      rw [← mem_firstOccKeys, ← hkeys] at hmem
      obtain ⟨p, hp, hpk⟩ := List.mem_map.mp hmem
      exact hforall p hp hpk
    have hstep : consolidationStep acc a = acc ++ [(consolidationKey a, a)] := by
      simp only [consolidationStep, hany, if_false]
      rfl
    constructor
    · have hmr : (l ++ [a]).map consolidationKey =
          l.map consolidationKey ++ [consolidationKey a] := by simp
      rw [hstep, List.map_append, hmr, firstOccKeys_append, if_neg hknl, hkeys]
      rfl
    · intro p' hp'
      rw [hstep, List.mem_append] at hp'
      rcases hp' with hp' | hp'
      · obtain ⟨hpfst, f, hfind, hpsnd⟩ := hentries p' hp'
        have hpk : ¬(p'.1 = consolidationKey a) := hforall p' hp'
        refine ⟨hpfst, f, ?_, ?_⟩
        · rw [List.find?_append, hfind]
          rfl
        · rw [List.filter_append, List.map_append, List.sum_append]
          have hne : ¬consolidationKey a = p'.1 := fun hEq => hpk hEq.symm
          have hfa : ([a].filter fun b => consolidationKey b = p'.1) = [] := by
            simp [hne]
          rw [hfa]
          simpa using hpsnd
      · simp only [List.mem_singleton] at hp'
        subst hp'
        refine ⟨rfl, a, ?_, ?_⟩
        · rw [List.find?_append]
          have h1 : (l.find? fun b => consolidationKey b = consolidationKey a) = none := by
            rw [List.find?_eq_none]
            intro b hb
            simp only [decide_eq_true_eq]
            intro hEq
            exact hknl (List.mem_map.mpr ⟨b, hb, hEq⟩)
          rw [h1]
          simp [List.find?]
        · have h2 : (l.filter fun b => consolidationKey b = consolidationKey a) = [] := by
            rw [List.filter_eq_nil_iff]
            intro b hb
            simp only [decide_eq_true_eq]
            intro hEq
            exact hknl (List.mem_map.mpr ⟨b, hb, hEq⟩)
          rw [List.filter_append, h2]
          simp [List.filter]

theorem consolidation_foldl :
    ∀ (rest : List Activity) {l : List Activity} {acc : List (String × Activity)},
      consolidationInv l acc →
      consolidationInv (l ++ rest) (rest.foldl consolidationStep acc)
  | [], l, acc, h => by simpa using h
  | a :: rest, l, acc, h => by
      have h1 := consolidationStep_inv a h
      have h2 := consolidation_foldl rest h1
      rw [List.append_assoc] at h2
      simpa using h2

theorem consolidation_inv_final (l : List Activity) :
    consolidationInv l (l.foldl consolidationStep []) := by
  have h0 : consolidationInv [] [] := by
    constructor
    · simp [firstOccKeys]
    · intro p hp
      simp at hp
  simpa using consolidation_foldl l h0

theorem storeConsolidated_snd (session_id : Int) (persist_ok : Activity → Bool)
    (db : Database) (l : List Activity) :
    (storeConsolidated session_id persist_ok db l).2 = l.all persist_ok := by
  induction l generalizing db with
  | nil => rfl
  | cons a rest ih =>
      by_cases h : persist_ok a = true <;> simp [storeConsolidated, h, ih]

/-! ## Claims -/

/-- Claim C1. The spec's invariant says at most one session row is ever open
(`end_time = NULL`), and in particular that `start()` while Tracking does not
create a second open session. The code violates this: `WorkTracker::start_tracking`
calls `Database::create_session` before consulting the state machine, so a
`start` in state Tracking inserts a second open session row and only then
returns the `AlreadyTracking` error. Evaluating the embedded code on the
trace `start; start` shows two simultaneously open session rows. -/
theorem c1_two_open_sessions :
    ((Tracker.initial.start_tracking 0).1.start_tracking 1).2 =
        .error "Already tracking" ∧
    ((Tracker.initial.start_tracking 0).1.start_tracking 1).1.db.openSessions.length = 2 := by
  exact ⟨rfl, rfl⟩

/-- Claim C4. The spec says `start()` in state Paused closes the open break
(in memory and in the store) and opens no new session, and that `start()` in
state Tracking fails changing nothing. Evaluating the embedded code: on the
trace `start; pause; start` the second `start` succeeds and resumes, the
in-memory break is cleared, but the store's break row still has
`end_time = NULL` and the store now holds a second (open) session row; and on
`start; start` the error is returned only after a second session row was
inserted. -/
theorem c4_code_evaluation :
    ((((Tracker.initial.start_tracking 0).1.pause_tracking 1).1.start_tracking 2).2 =
        .ok ()) ∧
    ((((Tracker.initial.start_tracking 0).1.pause_tracking 1).1.start_tracking 2).1.sm.current_state =
        .Tracking) ∧
    ((((Tracker.initial.start_tracking 0).1.pause_tracking 1).1.start_tracking 2).1.sm.current_break =
        none) ∧
    ((((Tracker.initial.start_tracking 0).1.pause_tracking 1).1.start_tracking 2).1.db.breaks =
        [{ id := 1, session_id := 1, start_time := 1, end_time := none }]) ∧
    ((((Tracker.initial.start_tracking 0).1.pause_tracking 1).1.start_tracking 2).1.db.sessions =
        [{ id := 1, start_time := 0, end_time := none, state := .Tracking },
         { id := 2, start_time := 2, end_time := none, state := .Tracking }]) ∧
    (((Tracker.initial.start_tracking 0).1.start_tracking 3).2 =
        .error "Already tracking") ∧
    (((Tracker.initial.start_tracking 0).1.start_tracking 3).1.db.sessions.length = 2) := by
  exact ⟨rfl, rfl, rfl, rfl, rfl, rfl, rfl⟩

/-- Claim C10. After a successful `stop()` the in-memory session is kept
(`current_session` still holds the ended session; nothing calls
`clear_session`). A second `stop()` re-runs `Database::end_session` on that
session id — overwriting its `end_time` with the later tick — before the
`Not tracking` error is returned, and a `pause()` while Stopped inserts a
break row attached to the ended session before its transition error. -/
theorem c10_store_mutated_after_rejected_transition (t : Tracker) (s : Session)
    (now1 now2 : Time)
    (hstate : t.sm.current_state = .Tracking)
    (hsess : t.sm.current_session = some s) :
    (t.stop_tracking now1).2 = .ok () ∧
    (t.stop_tracking now1).1.sm.current_session = some { s with end_time := some now1 } ∧
    ((t.stop_tracking now1).1.stop_tracking now2).2 = .error "Not tracking" ∧
    (((t.stop_tracking now1).1.stop_tracking now2).1.db.sessions.all fun row =>
        row.id ≠ s.id ∨ (row.end_time = some now2 ∧ row.state = .Stopped)) = true ∧
    ((t.stop_tracking now1).1.pause_tracking now2).2 = .error "Not tracking" ∧
    ((t.stop_tracking now1).1.pause_tracking now2).1.db.breaks =
      (t.stop_tracking now1).1.db.breaks ++
        [BreakPeriod.new (t.stop_tracking now1).1.db.next_break_id s.id now2] := by
  refine ⟨?_, ?_, ?_, ?_, ?_, ?_⟩
  · simp [Tracker.stop_tracking, StateManager.stop_tracking, hstate, hsess]
  · simp [Tracker.stop_tracking, StateManager.stop_tracking, hstate, hsess]
  · simp [Tracker.stop_tracking, StateManager.stop_tracking, hstate, hsess,
      Option.map_some']
  · simp only [Tracker.stop_tracking, StateManager.stop_tracking, hstate, hsess,
      Option.map_some', Database.end_session, List.all_eq_true, List.map_map,
      List.mem_map]
    intro row hrow
    obtain ⟨row0, _, hEq⟩ := hrow
    subst hEq
    by_cases h : row0.id = s.id <;> simp [h]
  · simp [Tracker.stop_tracking, Tracker.pause_tracking, StateManager.stop_tracking,
      StateManager.pause_tracking, hstate, hsess, Option.map_some']
  · simp [Tracker.stop_tracking, Tracker.pause_tracking, StateManager.stop_tracking,
      StateManager.pause_tracking, hstate, hsess, Option.map_some',
      Database.create_break, BreakPeriod.new]

theorem c10_witness :
    (((Tracker.initial.start_tracking 0).1.stop_tracking 5).1.pause_tracking 9).2 =
        .error "Not tracking" ∧
    (((Tracker.initial.start_tracking 0).1.stop_tracking 5).1.pause_tracking 9).1.db.breaks =
      ((Tracker.initial.start_tracking 0).1.stop_tracking 5).1.db.breaks ++
        [BreakPeriod.new ((Tracker.initial.start_tracking 0).1.stop_tracking 5).1.db.next_break_id 1 9] := by
  have h := c10_store_mutated_after_rejected_transition
    (Tracker.initial.start_tracking 0).1 (Session.new 1 0) 5 9 rfl rfl
  exact ⟨h.2.2.2.2.1, h.2.2.2.2.2⟩

/-- Claim C6. `mark_activities_logged` is total for every id list (SQLite
accepts the empty `IN ()` list; unknown ids match no row; already-true rows
are rewritten to the same value): afterwards exactly the rows whose id is in
the list carry `logged_to_jira = true` (the rest keep their flag), no other
column of any row changes, and running it a second time with the same list
changes nothing. -/
theorem c6_mark_exported_idempotent (db : Database) (ids : List Int) :
    ((db.mark_activities_logged ids).activities.map fun a => a.logged_to_jira) =
      (db.activities.map fun a => a.logged_to_jira || decide (a.id ∈ ids)) ∧
    ((db.mark_activities_logged ids).activities.map fun a => { a with logged_to_jira := false }) =
      (db.activities.map fun a => { a with logged_to_jira := false }) ∧
    (db.mark_activities_logged ids).mark_activities_logged ids =
      db.mark_activities_logged ids := by
  refine ⟨?_, ?_, ?_⟩
  · simp only [Database.mark_activities_logged, List.map_map]
    apply List.map_congr_left
    intro a _
    by_cases h : a.id ∈ ids <;> simp [Function.comp, h]
  · simp only [Database.mark_activities_logged, List.map_map]
    apply List.map_congr_left
    intro a _
    by_cases h : a.id ∈ ids <;> simp [Function.comp, h]
  · simp only [Database.mark_activities_logged, List.map_map]
    congr 1
    apply List.map_congr_left
    intro a _
    by_cases h : a.id ∈ ids <;> simp [Function.comp, h]

set_option maxRecDepth 8000 in
/-- Claim C8. Building an `ActivityForAnalysis` entry is *not* total: the
truncation slices the first 500 *bytes* of the description
(`&activity.description[..500]`), which panics when byte 500 is not a UTF-8
character boundary. 167 euro signs (3 bytes each, 501 bytes total) make byte
500 fall inside the last character: the embedded construction returns `none`
(the panic). -/
theorem c8_truncation_panics :
    ocr_sample (List.replicate 167 '€') = none ∧
    activityForAnalysis
      { id := 1, session_id := 1, timestamp := 0, duration_secs := 300,
        window_title := "Test", app_name := "App",
        description := String.mk (List.replicate 167 '€'), tier := .Micro,
        logged_to_jira := false } = none := by
  constructor <;> decide

set_option maxRecDepth 4000 in
/-- Claim C3, counterexample. A tick while Tracking whose fetch succeeds with
one observation but whose `store_activity` INSERT fails leaves the cursor at
its old value (here 0) instead of setting it to `now` (here 5): the `?` on
`store_activity` returns before `last_sync = Utc::now()` is reached. -/
theorem c3_counterexample :
    (sync true (some 1) 0 5 Database.empty
        (some [{ timestamp := 0, duration_secs := 60, window_title := "W",
                 app_name := "App", description := "d" }])
        fun _ => false).2.1 = 0 ∧
    ¬((sync true (some 1) 0 5 Database.empty
        (some [{ timestamp := 0, duration_secs := 60, window_title := "W",
                 app_name := "App", description := "d" }])
        fun _ => false).2.1 = 5) := by
  have h0 : (sync true (some 1) 0 5 Database.empty
      (some [{ timestamp := 0, duration_secs := 60, window_title := "W",
               app_name := "App", description := "d" }])
      fun _ => false).2.1 = 0 := rfl
  exact ⟨h0, by rw [h0]; decide⟩

/-- Claim C3, amended. On a tick that runs while Tracking (with a current
session), the cursor is set to `now` exactly when the fetch succeeded and
every consolidated unit was persisted successfully (vacuously so for an
empty fetch batch, which takes the early return); a fetch failure or a
persistence failure leaves the cursor unchanged. -/
theorem c3_cursor_advance (session_id : Int) (last_sync now : Time) (db : Database)
    (fetched : Option (List Activity)) (persist_ok : Activity → Bool) :
    (sync true (some session_id) last_sync now db fetched persist_ok).2.1 =
      match fetched with
      | none => last_sync
      | some acts =>
          if (consolidate_activities acts).all persist_ok then now else last_sync := by
  cases fetched with
  | none => rfl
  | some acts =>
      cases acts with
      | nil => simp [sync, consolidate_activities]
      | cons a rest =>
          have hs := storeConsolidated_snd session_id persist_ok db
            (consolidate_activities (a :: rest))
          by_cases hall : (consolidate_activities (a :: rest)).all persist_ok = true <;>
            simp [sync, hs, hall]

/-- Claim C5. The AI path's per-match loop: the `log_work` calls made are
exactly one per match whose confidence is at least the threshold (default
0.75, `defaultConfidenceThreshold`), each carrying the match's aggregated
seconds and generated summary (`matchWorklogActivity`), in order; and the
store afterwards is the input store with exactly `aiMarkedIds` — the union
of `activities_included` over accepted matches whose call succeeded —
marked exported. Hence a below-threshold match contributes no call and
marks none of its listed units. -/
theorem c5_ai_confidence_gate (threshold : ℚ) (company : String)
    (session_start : Time) (log_ok : String → Activity → Bool) (db : Database)
    (ms : List IssueMatch) :
    aiLogMatches threshold company session_start log_ok db ms =
      (db.mark_activities_logged (aiMarkedIds threshold company session_start log_ok ms),
       (ms.filter fun m => ¬(m.confidence < threshold)).map
         fun m => (m.key, matchWorklogActivity company session_start m)) := by
  induction ms generalizing db with
  | nil => simp [aiLogMatches, aiMarkedIds, mark_activities_logged_nil]
  | cons m rest ih =>
      by_cases hlt : m.confidence < threshold
      · have hlt' : ¬threshold ≤ m.confidence := not_le.mpr hlt
        simp [aiLogMatches, aiMarkedIds, hlt, hlt', ih, not_lt]
      · have hle : threshold ≤ m.confidence := not_lt.mp hlt
        by_cases hok : log_ok m.key (matchWorklogActivity company session_start m) = true
        · simp [aiLogMatches, aiMarkedIds, hlt, hle, hok, ih, not_lt,
            mark_activities_logged_append, List.filter_cons, List.flatMap_cons]
        · have hokf : log_ok m.key (matchWorklogActivity company session_start m) = false := by
            simpa using hok
          simp [aiLogMatches, aiMarkedIds, hlt, hle, hokf, ih, not_lt,
            List.filter_cons, List.flatMap_cons]

theorem fallbackStep_eq (issue_override : Option String)
    (is_assigned : String → Option Bool) (log_ok : String → Activity → Bool)
    (db : Database) (sa : StoredActivity) :
    fallbackStep issue_override is_assigned log_ok db sa =
      (db.mark_activities_logged
        (fallbackMarkedIds issue_override is_assigned log_ok [sa]),
       fallbackUnitCalls issue_override is_assigned sa) := by
  by_cases hlog : sa.logged_to_jira = true
  · cases hk : fallbackKey issue_override sa <;>
      simp [fallbackStep, fallbackUnitCalls, fallbackMarkedIds, fallbackAttempts,
        hlog, hk, mark_activities_logged_nil]
  · cases hk : fallbackKey issue_override sa with
    | none =>
        simp [fallbackStep, fallbackUnitCalls, fallbackMarkedIds, fallbackAttempts,
          hlog, hk, mark_activities_logged_nil]
    | some key =>
        cases hia : is_assigned key with
        | none =>
            simp [fallbackStep, fallbackUnitCalls, fallbackMarkedIds,
              fallbackAttempts, hlog, hk, hia, mark_activities_logged_nil]
        | some b =>
            cases b
            · simp [fallbackStep, fallbackUnitCalls, fallbackMarkedIds,
                fallbackAttempts, hlog, hk, hia, mark_activities_logged_nil]
            · by_cases hok : log_ok key (storedToActivity sa) = true <;>
                simp [fallbackStep, fallbackUnitCalls, fallbackMarkedIds,
                  fallbackAttempts, hlog, hk, hia, hok, mark_activities_logged_nil]

theorem fallbackMarkedIds_cons (issue_override : Option String)
    (is_assigned : String → Option Bool) (log_ok : String → Activity → Bool)
    (sa : StoredActivity) (rest : List StoredActivity) :
    fallbackMarkedIds issue_override is_assigned log_ok (sa :: rest) =
      fallbackMarkedIds issue_override is_assigned log_ok [sa] ++
        fallbackMarkedIds issue_override is_assigned log_ok rest := by
  simp only [fallbackMarkedIds, List.filter_cons]
  split <;> simp

theorem fallback_run_eq (issue_override : Option String)
    (is_assigned : String → Option Bool) (log_ok : String → Activity → Bool)
    (db : Database) (sas : List StoredActivity) :
    fallback_regex_logging issue_override is_assigned log_ok db sas =
      (db.mark_activities_logged
        (fallbackMarkedIds issue_override is_assigned log_ok sas),
       sas.flatMap (fallbackUnitCalls issue_override is_assigned)) := by
  induction sas generalizing db with
  | nil =>
      simp [fallback_regex_logging, fallbackMarkedIds, mark_activities_logged_nil]
  | cons sa rest ih =>
      simp only [fallback_regex_logging, fallbackStep_eq, ih, List.flatMap_cons]
      rw [mark_activities_logged_append, ← fallbackMarkedIds_cons]

/-- Claim C9. The fallback run equals: mark exactly the units whose single
`log_work` call was attempted and succeeded (`fallbackMarkedIds`), and make
per unit the calls `fallbackUnitCalls` — at most one per unit, none for a
unit whose `is_assigned_to_me` check did not return `Ok(true)`. In
particular, with no manual override, a unit whose title/app scan finds a
key (such as "PROJ-123") for which `is_assigned_to_me` returns `Ok(false)`
gets zero `log_work` calls and is not marked exported. -/
theorem c9_fallback_unassigned_skipped (issue_override : Option String)
    (is_assigned : String → Option Bool) (log_ok : String → Activity → Bool)
    (db : Database) (sas : List StoredActivity) :
    fallback_regex_logging issue_override is_assigned log_ok db sas =
      (db.mark_activities_logged
        (fallbackMarkedIds issue_override is_assigned log_ok sas),
       sas.flatMap (fallbackUnitCalls issue_override is_assigned)) ∧
    (∀ sa key, sa.logged_to_jira = false →
       find_issue_from_activity (storedToActivity sa) = some key →
       is_assigned key = some false →
       fallbackUnitCalls none is_assigned sa = [] ∧
       fallbackMarkedIds none is_assigned log_ok [sa] = []) := by
  refine ⟨fallback_run_eq issue_override is_assigned log_ok db sas, ?_⟩
  intro sa key h1 h2 h3
  constructor
  · simp [fallbackUnitCalls, fallbackKey, h2, h3]
  · simp [fallbackMarkedIds, fallbackAttempts, fallbackKey, h1, h2, h3]

theorem c9_witness :
    fallbackUnitCalls none
        (fun key => if key = "PROJ-123" then some false else none)
        { id := 7, session_id := 1, timestamp := 0, duration_secs := 900,
          window_title := "Fix PROJ-123 bug", app_name := "Code",
          description := "", tier := .Billable, logged_to_jira := false } = [] ∧
    fallbackMarkedIds none
        (fun key => if key = "PROJ-123" then some false else none)
        (fun _ _ => true)
        [{ id := 7, session_id := 1, timestamp := 0, duration_secs := 900,
           window_title := "Fix PROJ-123 bug", app_name := "Code",
           description := "", tier := .Billable, logged_to_jira := false }] = [] :=
  (c9_fallback_unassigned_skipped none
      (fun key => if key = "PROJ-123" then some false else none)
      (fun _ _ => true) Database.empty []).2
    { id := 7, session_id := 1, timestamp := 0, duration_secs := 900,
      window_title := "Fix PROJ-123 bug", app_name := "Code",
      description := "", tier := .Billable, logged_to_jira := false }
    "PROJ-123" rfl (by decide) (by decide)

theorem mem_get_session_activities (db : Database) (session_id : Int)
    (tier : Option ActivityTier) (a : StoredActivity) :
    a ∈ db.get_session_activities session_id tier ↔
      a ∈ db.activities ∧ a.session_id = session_id ∧ ∀ t ∈ tier, a.tier = t := by
  unfold Database.get_session_activities
  rw [List.mem_mergeSort, List.mem_filter]
  simp [and_assoc]

/-- Claim C2, counterexample. The store's activity query has no
"unexported only" filter, and the AI batch selection passes already
exported units to the classifier: a billable unit with
`logged_to_jira = true` is still selected into the batch. -/
theorem c2_counterexample :
    ({ id := 1, session_id := 1, timestamp := 0, duration_secs := 700,
       window_title := "W", app_name := "A", description := "",
       tier := .Billable, logged_to_jira := true } : StoredActivity) ∈
      aiBatchUnits
        { Database.empty with
            activities :=
              [{ id := 1, session_id := 1, timestamp := 0, duration_secs := 700,
                 window_title := "W", app_name := "A", description := "",
                 tier := .Billable, logged_to_jira := true }] } 1 ∧
    ({ id := 1, session_id := 1, timestamp := 0, duration_secs := 700,
       window_title := "W", app_name := "A", description := "",
       tier := .Billable, logged_to_jira := true } : StoredActivity).logged_to_jira
      = true := by
  constructor
  · refine List.mem_append.mpr (Or.inl ?_)
    rw [mem_get_session_activities]
    exact ⟨by simp, rfl, by simp⟩
  · rfl

/-- Claim C2, amended. The selection for the AI batch filters only by
session id and tier: a stored unit is in the batch exactly when it belongs
to the session, regardless of its `exported` flag. (Only the fallback path
skips exported units, through a caller-side check; the ids handed to
`markExported` in the AI path come from the classifier's response, not from
the selection.) -/
theorem c2_selection_ignores_exported (db : Database) (session_id : Int)
    (a : StoredActivity) :
    a ∈ aiBatchUnits db session_id ↔
      a ∈ db.activities ∧ a.session_id = session_id := by
  unfold aiBatchUnits
  rw [List.mem_append, mem_get_session_activities, mem_get_session_activities]
  constructor
  · rintro (⟨h1, h2, _⟩ | ⟨h1, h2, _⟩) <;> exact ⟨h1, h2⟩
  · rintro ⟨h1, h2⟩
    cases ht : a.tier
    · exact Or.inr ⟨h1, h2, by simp [ht]⟩
    · exact Or.inl ⟨h1, h2, by simp [ht]⟩

theorem c2_witness :
    ({ id := 2, session_id := 4, timestamp := 3, duration_secs := 120,
       window_title := "V", app_name := "B", description := "",
       tier := .Micro, logged_to_jira := false } : StoredActivity) ∈
      aiBatchUnits
        { Database.empty with
            activities :=
              [{ id := 2, session_id := 4, timestamp := 3, duration_secs := 120,
                 window_title := "V", app_name := "B", description := "",
                 tier := .Micro, logged_to_jira := false }] } 4 ↔
      ({ id := 2, session_id := 4, timestamp := 3, duration_secs := 120,
         window_title := "V", app_name := "B", description := "",
         tier := .Micro, logged_to_jira := false } : StoredActivity) ∈
        ({ Database.empty with
            activities :=
              [{ id := 2, session_id := 4, timestamp := 3, duration_secs := 120,
                 window_title := "V", app_name := "B", description := "",
                 tier := .Micro, logged_to_jira := false }] } : Database).activities ∧
      ({ id := 2, session_id := 4, timestamp := 3, duration_secs := 120,
         window_title := "V", app_name := "B", description := "",
         tier := .Micro, logged_to_jira := false } : StoredActivity).session_id = 4 :=
  c2_selection_ignores_exported
    { Database.empty with
        activities :=
          [{ id := 2, session_id := 4, timestamp := 3, duration_secs := 120,
             window_title := "V", app_name := "B", description := "",
             tier := .Micro, logged_to_jira := false }] } 4
    { id := 2, session_id := 4, timestamp := 3, duration_secs := 120,
      window_title := "V", app_name := "B", description := "",
      tier := .Micro, logged_to_jira := false }

/-- Claim C7, counterexample. Consolidation groups by the single string
`format!("{}:{}", app_name, window_title)`, not by the pair: the two
observations `(app "X:A", win "B")` and `(app "X", win "A:B")` — distinct
pairs — share the key `"X:A:B"` and are merged into one unit (carrying the
first observation's app/window and the summed duration), whereas grouping by
the pair would emit two units. -/
theorem c7_pair_grouping_counterexample :
    (consolidate_activities
      [{ timestamp := 0, duration_secs := 10, window_title := "B",
         app_name := "X:A", description := "d1" },
       { timestamp := 1, duration_secs := 20, window_title := "A:B",
         app_name := "X", description := "d2" }]).length = 1 ∧
    ((consolidate_activities
      [{ timestamp := 0, duration_secs := 10, window_title := "B",
         app_name := "X:A", description := "d1" },
       { timestamp := 1, duration_secs := 20, window_title := "A:B",
         app_name := "X", description := "d2" }]).all fun u =>
        u.app_name == "X:A" && u.window_title == "B" &&
          u.duration_secs == 30) = true := by
  constructor <;> decide

/-- Claim C7, amended. Consolidation of one fetch batch groups observations
by the joined key `app_name ++ ":" ++ window_title` (which agrees with
grouping by the pair whenever the joined keys of distinct pairs do not
collide, e.g. when no app name contains a colon): the output has exactly one
unit per distinct key in first-seen order, each unit is the group's
first-seen observation with its duration replaced by the group's summed
duration; in particular the batch `[(X,A,60), (X,A,60), (Y,B,30)]` yields
exactly the two units `(X,A,120)` and `(Y,B,30)`. -/
theorem c7_consolidation_by_joined_key (l : List Activity) :
    ((consolidate_activities l).map consolidationKey =
        firstOccKeys (l.map consolidationKey)) ∧
    (∀ u ∈ consolidate_activities l,
      ∃ f, (l.find? fun b => consolidationKey b = consolidationKey u) = some f ∧
        u = { f with duration_secs :=
          ((l.filter fun b => consolidationKey b = consolidationKey u).map
            Activity.duration_secs).sum }) ∧
    (consolidate_activities
      [{ timestamp := 0, duration_secs := 60, window_title := "A",
         app_name := "X", description := "d1" },
       { timestamp := 1, duration_secs := 60, window_title := "A",
         app_name := "X", description := "d2" },
       { timestamp := 2, duration_secs := 30, window_title := "B",
         app_name := "Y", description := "d3" }]).length = 2 ∧
    ({ timestamp := 0, duration_secs := 120, window_title := "A",
       app_name := "X", description := "d1" } : Activity) ∈
      consolidate_activities
        [{ timestamp := 0, duration_secs := 60, window_title := "A",
           app_name := "X", description := "d1" },
         { timestamp := 1, duration_secs := 60, window_title := "A",
           app_name := "X", description := "d2" },
         { timestamp := 2, duration_secs := 30, window_title := "B",
           app_name := "Y", description := "d3" }] ∧
    ({ timestamp := 2, duration_secs := 30, window_title := "B",
       app_name := "Y", description := "d3" } : Activity) ∈
      consolidate_activities
        [{ timestamp := 0, duration_secs := 60, window_title := "A",
           app_name := "X", description := "d1" },
         { timestamp := 1, duration_secs := 60, window_title := "A",
           app_name := "X", description := "d2" },
         { timestamp := 2, duration_secs := 30, window_title := "B",
           app_name := "Y", description := "d3" }] := by
  obtain ⟨hkeys, hentries⟩ := consolidation_inv_final l
  refine ⟨?_, ?_, by decide, by decide, by decide⟩
  · rw [consolidate_activities, List.map_map, ← hkeys]
    apply List.map_congr_left
    intro p hp
    exact ((hentries p hp).1).symm
  · intro u hu
    rw [consolidate_activities] at hu
    obtain ⟨p, hp, rfl⟩ := List.mem_map.mp hu
    obtain ⟨hpfst, f, hfind, hpsnd⟩ := hentries p hp
    rw [← hpfst]
    exact ⟨f, hfind, hpsnd⟩

theorem c7_witness :
    ∃ f, ([{ timestamp := 5, duration_secs := 42, window_title := "Win",
             app_name := "App", description := "x" }].find? fun b =>
          consolidationKey b =
            consolidationKey ({ timestamp := 5, duration_secs := 42,
                                window_title := "Win", app_name := "App",
                                description := "x" } : Activity))
        = some f ∧
      ({ timestamp := 5, duration_secs := 42, window_title := "Win",
         app_name := "App", description := "x" } : Activity) =
        { f with duration_secs :=
          (([{ timestamp := 5, duration_secs := 42, window_title := "Win",
               app_name := "App", description := "x" }].filter fun b =>
              consolidationKey b =
                consolidationKey ({ timestamp := 5, duration_secs := 42,
                                    window_title := "Win", app_name := "App",
                                    description := "x" } : Activity)).map
            Activity.duration_secs).sum } :=
  (c7_consolidation_by_joined_key
      [{ timestamp := 5, duration_secs := 42, window_title := "Win",
         app_name := "App", description := "x" }]).2.1
    { timestamp := 5, duration_secs := 42, window_title := "Win",
      app_name := "App", description := "x" }
    (by decide)

end WTJ
